import Mathlib

/-!
# Verification of the rag-pdf-assistant document pipeline

Shallow embedding of the core document-processing and retrieval code of the
`rag-pdf-assistant` backend (Python), together with theorems settling the
specification claims about it.

Python strings are modelled as `List Char`; the relevant fragment of Python's
string/regex operations on them is reproduced character by character (ASCII
model of Python's Unicode-aware classifiers).  Machine floats appear in the
source only in comparisons of the form `a / len < 0.3` and
`size > chunk_size * 1.5`, which are exact at the relevant magnitudes and are
modelled by the corresponding integer comparisons (`10*a < 3*len`,
`2*size > 3*chunk_size`).
-/

namespace RagPdf

/-- ASCII model of Python's `\s` / `str.strip` whitespace class. -/
def pyIsSpace (c : Char) : Bool :=
  c = ' ' || c = '\t' || c = '\n' || c = '\r' || c = '\x0b' || c = '\x0c'

/-- ASCII model of Python's `str.isalpha` test on a single character. -/
def pyIsAlpha (c : Char) : Bool := c.isAlpha

/-- Model of Python's `str.isdigit` test on a single character (`\d`). -/
def pyIsDigit (c : Char) : Bool := c.isDigit

/-- ASCII model of Python's `\w` word-character class. -/
def pyIsWordChar (c : Char) : Bool := c.isAlphanum || c = '_'

/-- Python `str.strip()`: drop leading and trailing whitespace. -/
def pyStrip (l : List Char) : List Char :=
  ((l.dropWhile pyIsSpace).reverse.dropWhile pyIsSpace).reverse

/-- Python `str.rstrip()`: drop trailing whitespace. -/
def pyRStrip (l : List Char) : List Char :=
  (l.reverse.dropWhile pyIsSpace).reverse

/-- Python `str.lower()` (ASCII model). -/
def pyLower (l : List Char) : List Char := l.map Char.toLower

/-- Scanning loop for Python `str.split()`: `cur` holds the current word
reversed; whitespace closes a word, empty pieces are dropped. -/
def pyWordsAux (cur : List Char) : List Char → List (List Char)
  | [] => if cur.isEmpty then [] else [cur.reverse]
  | c :: rest =>
      if pyIsSpace c then
        if cur.isEmpty then pyWordsAux [] rest
        else cur.reverse :: pyWordsAux [] rest
      else pyWordsAux (c :: cur) rest

/-- Python `str.split()` with no argument: split on whitespace runs,
dropping empty pieces. -/
def pyWords (l : List Char) : List (List Char) := pyWordsAux [] l

/-- Python `str.split(sep)` for a one-character separator (keeps empty pieces). -/
def pySplitOnAux (sep : Char) (acc : List Char) : List Char → List (List Char)
  | [] => [acc.reverse]
  | c :: rest =>
      if c = sep then acc.reverse :: pySplitOnAux sep [] rest
      else pySplitOnAux sep (c :: acc) rest

/-- Python `str.split(sep)` for a one-character separator. -/
def pySplitOn (sep : Char) (l : List Char) : List (List Char) :=
  pySplitOnAux sep [] l

/-- Python `sep.join(pieces)`. -/
def pyJoin (sep : List Char) (pieces : List (List Char)) : List Char :=
  List.intercalate sep pieces

/-- Python `x in y` substring test. -/
def pyContains (needle hay : List Char) : Bool :=
  hay.tails.any (fun t => needle.isPrefixOf t)

/-- Python `lst[-n:]`: the last `n` elements (whole list if shorter). -/
def lastN (n : Nat) (l : List α) : List α := l.drop (l.length - n)

/-- Convert a Lean string literal to the `List Char` model. -/
def sl (s : String) : List Char := s.toList

instance {ε α : Type} [DecidableEq ε] [DecidableEq α] : DecidableEq (Except ε α)
  | .ok a, .ok b =>
      if h : a = b then isTrue (h ▸ rfl) else isFalse (fun hh => h (Except.ok.inj hh))
  | .error e, .error f =>
      if h : e = f then isTrue (h ▸ rfl) else isFalse (fun hh => h (Except.error.inj hh))
  | .ok _, .error _ => isFalse (fun hh => Except.noConfusion hh)
  | .error _, .ok _ => isFalse (fun hh => Except.noConfusion hh)

/-!
## Configuration

`backend/config.py` declares a `Settings` class, but the fields consulted by
the document-processing modules (`MIN_TEXT_BLOCK_WORDS`,
`PRESERVE_NUMERIC_VALUES`, `HEADER_FOOTER_DETECTION`) are absent from it.
Modelled from the spec: the configuration surface lists "minimum block word
count", "numeric-value preservation" and "header/footer detection on/off" as
environment-driven settings, so they are carried here as explicit parameters.
-/

/-- Modelled from the spec: the configuration fields referenced by
`chunking.py`, `cleaning.py`, `layout.py` and `extraction.py` that are
missing from `config.py`. -/
structure Settings where
  MIN_TEXT_BLOCK_WORDS : Nat
  PRESERVE_NUMERIC_VALUES : Bool
  HEADER_FOOTER_DETECTION : Bool
deriving DecidableEq

/-- A concrete settings instance used for concrete evaluations. -/
def defaultSettings : Settings :=
  { MIN_TEXT_BLOCK_WORDS := 2
    PRESERVE_NUMERIC_VALUES := true
    HEADER_FOOTER_DETECTION := true }

/-!
## `chunking.py`
-/

/-- Greedy match of the suffix of the paragraph-break regex `\n\s*\n` after
its leading newline: the largest `m` such that the first `m` characters are
whitespace and the `(m+1)`-st character is a newline (regex `\s*` is greedy
with backtracking into the final `\n`). -/
def wsRunMatch : List Char → Option Nat
  | [] => none
  | c :: rest =>
      if pyIsSpace c then
        match wsRunMatch rest with
        | some m => some (m + 1)
        | none => if c = '\n' then some 0 else none
      else none

/-- `re.split(r'\n\s*\n', text)` scanning loop: `acc` holds the current piece
reversed.  Structural recursion on a fuel argument so that the definition
computes in the kernel; every recursive step consumes at least one input
character, so fuel `text.length + 1` can never run out (the fuel-exhausted
fallback still satisfies the loop's defining property). -/
def paraSplitAux : Nat → List Char → List Char → List (List Char)
  | 0, acc, l => [acc.reverse ++ l]
  | _ + 1, acc, [] => [acc.reverse]
  | fuel + 1, acc, c :: rest =>
      if c = '\n' then
        match wsRunMatch rest with
        | some m => acc.reverse :: paraSplitAux fuel [] (rest.drop (m + 1))
        | none => paraSplitAux fuel (c :: acc) rest
      else paraSplitAux fuel (c :: acc) rest

/-- `re.split(r'\n\s*\n', text)`: split on blank-line (paragraph) boundaries. -/
def pySplitParagraphs (text : List Char) : List (List Char) :=
  paraSplitAux (text.length + 1) [] text

/-- `True` when the text contains a match of `\n\s*\n` somewhere. -/
def hasParaBreak : List Char → Bool
  | [] => false
  | c :: rest => (c = '\n' && (wsRunMatch rest).isSome) || hasParaBreak rest

/-- The line-regrouping loop used for blocks longer than 2000 characters in
`_split_into_logical_blocks`: accumulate non-blank lines, emitting the
space-join whenever it exceeds 1000 characters or a blank line ends a group. -/
def regroupLines (group : List (List Char)) : List (List Char) → List (List Char)
  | [] => if group.isEmpty then [] else [pyJoin [' '] group]
  | line :: rest =>
      if pyStrip line ≠ [] then
        let g := group ++ [line]
        if (pyJoin [' '] g).length > 1000 then pyJoin [' '] g :: regroupLines [] rest
        else regroupLines g rest
      else if group.isEmpty then regroupLines [] rest
      else pyJoin [' '] group :: regroupLines [] rest

/-- `_split_into_logical_blocks`: split into paragraphs, regroup very long
blocks by single newlines, strip short blocks, and drop blank blocks. -/
def split_into_logical_blocks (text : List Char) : List (List Char) :=
  let blocks := pySplitParagraphs text
  let refined := (blocks.map (fun block =>
    if block.length > 2000 then regroupLines [] (pySplitOn '\n' block)
    else [pyStrip block])).flatten
  refined.filter (fun b => pyStrip b ≠ [])

/-- The currency-symbol character class of `chunking.py` (it includes `,`). -/
def isCurrencyChar (c : Char) : Bool :=
  c ∈ ['$', ',', '€', '£', '¥', '₹', '₽', '₩', '₦', '₨', '₪', '₫', '₡', '₵',
       '₺', '₴', '₸', '₼', '₲', '₱', '₭', '₯', '₰', '₳', '₶', '₷', '₻', '₾', '₿']

/-- After a currency symbol: optional whitespace then a digit
(`\s*\d` with existential search semantics). -/
def digitAfterWs (l : List Char) : Bool :=
  match l.dropWhile pyIsSpace with
  | d :: _ => pyIsDigit d
  | [] => false

/-- `re.search(r'[$,€...]\s*\d', block)`. -/
def hasCurrencyDigit : List Char → Bool
  | [] => false
  | c :: rest => (isCurrencyChar c && digitAfterWs rest) || hasCurrencyDigit rest

/-- Match of `\d+(\.\d+)?%` anchored at the head of the list. -/
def percentMatchAt : List Char → Bool
  | [] => false
  | c :: rest =>
      c.isDigit &&
        (match rest.dropWhile pyIsDigit with
         | '%' :: _ => true
         | '.' :: r2 =>
             (match r2 with
              | d :: _ =>
                  d.isDigit &&
                    (match r2.dropWhile pyIsDigit with
                     | '%' :: _ => true
                     | _ => false)
              | [] => false)
         | _ => false)

/-- `re.search(r'\d+(\.\d+)?%', block)`. -/
def hasPercent (l : List Char) : Bool :=
  l.tails.any percentMatchAt

/-- `re.match(r'^\s*[\[\(]\d+[\]\)]\s*$', block.strip())`: a bracketed
footnote reference standing alone. -/
def isFootnoteRef (t : List Char) : Bool :=
  match t with
  | b :: rest =>
      (b = '[' || b = '(') &&
        (let ds := rest.takeWhile pyIsDigit
         !ds.isEmpty &&
           (match rest.drop ds.length with
            | [e] => e = ']' || e = ')'
            | _ => false))
  | [] => false

/-- The bullet character class of `chunking.py`. -/
def isBulletChar (c : Char) : Bool :=
  c ∈ ['•', '●', '○', '■', '□', '▪', '▫', '-', '*']

/-- `re.match(r'^\s*[•●○■□▪▫\-\*]\s', block)`. -/
def isBulletLine (block : List Char) : Bool :=
  match block.dropWhile pyIsSpace with
  | b :: w :: _ => isBulletChar b && pyIsSpace w
  | _ => false

/-- `re.match(r'^\s*\d+[\.\)]\s', block)`. -/
def isNumberedLine (block : List Char) : Bool :=
  let t := block.dropWhile pyIsSpace
  let ds := t.takeWhile pyIsDigit
  !ds.isEmpty &&
    (match t.drop ds.length with
     | p :: w :: _ => (p = '.' || p = ')') && pyIsSpace w
     | _ => false)

/-- ASCII model of Python `str.isupper()`: at least one cased character and
no lowercase cased character. -/
def pyIsUpper (l : List Char) : Bool :=
  l.any pyIsAlpha && l.all (fun c => !pyIsAlpha c || c.isUpper)

/-- `_is_important_short_block`. -/
def is_important_short_block (s : Settings) (block : List Char) : Bool :=
  if block.isEmpty || (pyStrip block).isEmpty then false
  else if s.PRESERVE_NUMERIC_VALUES && hasCurrencyDigit block then true
  else if s.PRESERVE_NUMERIC_VALUES && hasPercent block then true
  else if isFootnoteRef (pyStrip block) then true
  else if isBulletLine block then true
  else if isNumberedLine block then true
  else if (pyWords block).length ≤ 5 && pyIsUpper block then true
  else if 2 ≤ (pyWords block).length && (pyWords block).length ≤ 4 &&
            (match block.getLast? with
             | some c => c = '.' || c = '!' || c = '?' || c = ':'
             | none => false) then true
  else false

/-- `_filter_blocks`: keep blocks meeting the minimum word count, or matching
the important-short-block heuristic. -/
def filter_blocks (s : Settings) (blocks : List (List Char)) : List (List Char) :=
  blocks.filter (fun block =>
    s.MIN_TEXT_BLOCK_WORDS ≤ (pyWords block).length || is_important_short_block s block)

/-- Python `str.rfind(' ')`: index of the last space, if any. -/
def rfindSpace : List Char → Option Nat
  | [] => none
  | c :: rest =>
      match rfindSpace rest with
      | some i => some (i + 1)
      | none => if c = ' ' then some 0 else none

/-- `_get_overlap_text`.  Note `text[-overlap_chars:]` is the whole string
when `overlap_chars = 0` (Python's `-0` index). -/
def get_overlap_text (text : List Char) (overlap_chars : Nat) : List Char :=
  if text.length ≤ overlap_chars then text
  else
    let overlap_text :=
      if overlap_chars = 0 then text else text.drop (text.length - overlap_chars)
    match rfindSpace overlap_text with
    | some i => if overlap_chars / 2 < i then overlap_text.take i else overlap_text
    | none => overlap_text

/-- The block-accumulation loop of `_create_chunks_from_blocks`.  The Python
variable `current_size` always equals `len(current_chunk)` and is modelled by
`current.length`; `current_size + block_size > chunk_size * 1.5` is the exact
integer comparison `2 * (…) > 3 * chunk_size`. -/
def create_chunks_loop (chunk_size overlap : Nat) :
    List (List Char) → List Char → List (List Char)
  | [], current => if (pyStrip current).isEmpty then [] else [pyStrip current]
  | block :: rest, current =>
      if 2 * (current.length + block.length) > 3 * chunk_size && !current.isEmpty then
        pyStrip current ::
          create_chunks_loop chunk_size overlap rest
            (get_overlap_text current overlap ++ ' ' :: block)
      else if current.isEmpty then
        create_chunks_loop chunk_size overlap rest block
      else
        create_chunks_loop chunk_size overlap rest (current ++ ' ' :: block)

/-- `_create_chunks_from_blocks`. -/
def create_chunks_from_blocks (blocks : List (List Char))
    (chunk_size overlap : Nat) : List (List Char) :=
  if blocks.isEmpty then [] else create_chunks_loop chunk_size overlap blocks []

/-- `_is_chunk_quality`: non-blank, stripped length at least 50, and the
alphabetic-character ratio at least 0.3 (`10 * alpha ≥ 3 * len`). -/
def is_chunk_quality (chunk : List Char) : Bool :=
  if chunk.isEmpty || (pyStrip chunk).isEmpty then false
  else if (pyStrip chunk).length < 50 then false
  else if 10 * chunk.countP pyIsAlpha < 3 * chunk.length then false
  else true

/-- `chunk_text` (defaults in the source: `chunk_size=800`, `overlap=100`). -/
def chunk_text (s : Settings) (text : List Char)
    (chunk_size overlap : Nat) : List (List Char) :=
  if text.isEmpty || (pyStrip text).isEmpty then []
  else
    (create_chunks_from_blocks
        (filter_blocks s (split_into_logical_blocks text)) chunk_size overlap).filter
      is_chunk_quality

/-!
## Basic lemmas about the string helpers
-/

theorem dropWhile_length_le {α} (p : α → Bool) :
    ∀ l : List α, (l.dropWhile p).length ≤ l.length
  | [] => Nat.le_refl _
  | a :: l => by
      rw [List.dropWhile_cons]
      split
      · exact Nat.le_trans (dropWhile_length_le p l) (Nat.le_succ _)
      · exact Nat.le_refl _

theorem pyStrip_length_le (l : List Char) : (pyStrip l).length ≤ l.length := by
  unfold pyStrip
  calc ((l.dropWhile pyIsSpace).reverse.dropWhile pyIsSpace).reverse.length
      = ((l.dropWhile pyIsSpace).reverse.dropWhile pyIsSpace).length := by
        rw [List.length_reverse]
    _ ≤ (l.dropWhile pyIsSpace).reverse.length := dropWhile_length_le _ _
    _ = (l.dropWhile pyIsSpace).length := by rw [List.length_reverse]
    _ ≤ l.length := dropWhile_length_le _ _

/-- For a positive overlap budget the overlap seed never exceeds it.
(For `overlap_chars = 0` this fails: Python's `text[-0:]` is the whole
string.) -/
theorem get_overlap_text_length_le (t : List Char) (ov : Nat) (hov : 1 ≤ ov) :
    (get_overlap_text t ov).length ≤ ov := by
  unfold get_overlap_text
  split
  · assumption
  · rename_i hlong
    have hov0 : ¬ ov = 0 := by omega
    simp only [if_neg hov0]
    have hlen : (t.drop (t.length - ov)).length = ov := by
      rw [List.length_drop]; omega
    cases hfs : rfindSpace (t.drop (t.length - ov)) with
    | none => simp [hlen]
    | some i =>
        simp only
        split
        · rw [List.length_take]; omega
        · omega

/-!
## Settling the chunking claims
-/

/-- Every chunk emitted by the accumulation loop respects the size bound,
provided every remaining block does and the chunk under construction does. -/
theorem create_chunks_loop_bound (cs ov : Nat) (hov : 1 ≤ ov) :
    ∀ (blocks : List (List Char)) (current : List Char),
      (∀ b ∈ blocks, 2 * b.length ≤ 3 * cs) →
      2 * current.length ≤ 3 * cs + 2 * ov + 2 →
      ∀ ch ∈ create_chunks_loop cs ov blocks current,
        2 * ch.length ≤ 3 * cs + 2 * ov + 2
  | [], current => by
      intro _ hcur ch hch
      unfold create_chunks_loop at hch
      split at hch
      · simp at hch
      · simp only [List.mem_singleton] at hch
        subst hch
        have := pyStrip_length_le current
        omega
  | block :: rest, current => by
      intro hb hcur ch hch
      unfold create_chunks_loop at hch
      split at hch
      · rcases List.mem_cons.1 hch with rfl | hch'
        · have := pyStrip_length_le current
          omega
        · refine create_chunks_loop_bound cs ov hov rest _
            (fun b hb' => hb b (List.mem_cons_of_mem _ hb')) ?_ ch hch'
          have h1 := get_overlap_text_length_le current ov hov
          have h2 := hb block (List.mem_cons_self _ _)
          simp only [List.length_append, List.length_cons]
          omega
      · rename_i hcond
        split at hch
        · refine create_chunks_loop_bound cs ov hov rest block
            (fun b hb' => hb b (List.mem_cons_of_mem _ hb')) ?_ ch hch
          have h2 := hb block (List.mem_cons_self _ _)
          omega
        · rename_i hne
          refine create_chunks_loop_bound cs ov hov rest _
            (fun b hb' => hb b (List.mem_cons_of_mem _ hb')) ?_ ch hch
          have hsmall : 2 * (current.length + block.length) ≤ 3 * cs := by
            by_contra hgt
            apply hcond
            simp only [Bool.and_eq_true, decide_eq_true_eq, Bool.not_eq_true']
            exact ⟨by omega, by simpa using hne⟩
          simp only [List.length_append, List.length_cons]
          omega

/-- Claim C1: every chunk returned by `chunk_text` has stripped length at
least 50 and at least 30% alphabetic characters; no chunk violating either
bound is returned. -/
theorem chunk_quality_invariant (s : Settings) (text : List Char) (cs ov : Nat)
    (ch : List Char) (hch : ch ∈ chunk_text s text cs ov) :
    50 ≤ (pyStrip ch).length ∧ 3 * ch.length ≤ 10 * ch.countP pyIsAlpha := by
  unfold chunk_text at hch
  split at hch
  · simp at hch
  · have hq := (List.mem_filter.1 hch).2
    unfold is_chunk_quality at hq
    split at hq
    · simp at hq
    · split at hq
      · simp at hq
      · split at hq
        · simp at hq
        · rename_i h1 h2 h3
          omega

/-- Sample text used as a concrete witness: a single well-formed sentence. -/
def sampleChunk : List Char :=
  sl "The quick brown fox jumps over the lazy sleeping dog today."

/-- Witness for C1: a concrete chunk produced by `chunk_text` satisfying
the quality bounds. -/
theorem chunk_quality_invariant_witness :
    sampleChunk ∈ chunk_text defaultSettings sampleChunk 800 100 ∧
      50 ≤ (pyStrip sampleChunk).length ∧
      3 * sampleChunk.length ≤ 10 * sampleChunk.countP pyIsAlpha :=
  ⟨by decide,
   chunk_quality_invariant defaultSettings sampleChunk 800 100 sampleChunk (by decide)⟩

/-- A 60-character text with many words and no newline: it becomes a single
logical block and hence a single oversized chunk. -/
def longSmallText : List Char :=
  sl "ab ab ab ab ab ab ab ab ab ab ab ab ab ab ab ab ab ab ab ab "

/-- Counterexample to claim C5 as stated: with `chunk_size = 10` and
`overlap = 10` the produced chunk has 59 characters, exceeding
`chunk_size * 1.5` by far more than the overlap-seed allowance
(`overlap` characters plus a joining space): a single logical block longer
than the bound is emitted whole. -/
theorem chunk_size_bound_cex :
    chunk_text defaultSettings longSmallText 10 10 =
        [sl "ab ab ab ab ab ab ab ab ab ab ab ab ab ab ab ab ab ab ab ab"] ∧
      3 * 10 + 2 * 10 + 2 <
        2 * (sl "ab ab ab ab ab ab ab ab ab ab ab ab ab ab ab ab ab ab ab ab").length := by
  decide

/-- Claim C5, amended: when the overlap budget is positive and every
filtered logical block fits in `1.5 * chunk_size`, every chunk fits in
`1.5 * chunk_size + overlap + 1` (stated via exact integer arithmetic:
`2 * len ≤ 3 * chunk_size + 2 * overlap + 2`). -/
theorem chunk_size_bound (s : Settings) (text : List Char) (cs ov : Nat)
    (hov : 1 ≤ ov)
    (hblocks : ∀ b ∈ filter_blocks s (split_into_logical_blocks text),
        2 * b.length ≤ 3 * cs) :
    ∀ ch ∈ chunk_text s text cs ov, 2 * ch.length ≤ 3 * cs + 2 * ov + 2 := by
  intro ch hch
  unfold chunk_text at hch
  split at hch
  · simp at hch
  · have hch' := (List.mem_filter.1 hch).1
    unfold create_chunks_from_blocks at hch'
    split at hch'
    · simp at hch'
    · exact create_chunks_loop_bound cs ov hov _ [] hblocks (by simp) ch hch'

/-- Witness for the amended C5 at `sampleChunk`. -/
theorem chunk_size_bound_witness :
    1 ≤ 100 ∧
      (∀ b ∈ filter_blocks defaultSettings (split_into_logical_blocks sampleChunk),
          2 * b.length ≤ 3 * 800) ∧
      2 * sampleChunk.length ≤ 3 * 800 + 2 * 100 + 2 :=
  ⟨by decide, by decide,
   chunk_size_bound defaultSettings sampleChunk 800 100 (by decide) (by decide)
     sampleChunk (by decide)⟩

/-- A text with no match of `\n\s*\n` is returned as a single piece by the
paragraph splitter (for every fuel value). -/
theorem paraSplitAux_no_break :
    ∀ (fuel : Nat) (l : List Char), hasParaBreak l = false →
      ∀ acc : List Char, paraSplitAux fuel acc l = [acc.reverse ++ l]
  | 0, l => by intro _ acc; rfl
  | fuel + 1, [] => by intro _ acc; simp [paraSplitAux]
  | fuel + 1, c :: rest => by
      intro hnb acc
      unfold hasParaBreak at hnb
      simp only [Bool.or_eq_false_iff, Bool.and_eq_false_iff] at hnb
      obtain ⟨h1, h2⟩ := hnb
      unfold paraSplitAux
      by_cases hc : c = '\n'
      · have hnone : wsRunMatch rest = none := by
          cases h : wsRunMatch rest with
          | none => rfl
          | some m =>
              rcases h1 with h1 | h1
              · simp [hc] at h1
              · rw [h] at h1; simp at h1
        simp only [if_pos hc, hnone]
        rw [paraSplitAux_no_break fuel rest h2]
        simp
      · simp only [if_neg hc]
        rw [paraSplitAux_no_break fuel rest h2]
        simp

/-- Claim C6, amended: `chunk_text` is the identity on a single quality
chunk that is whitespace-trimmed, contains no blank-line separator, is at
most 2000 characters long (so the long-block regrouping does not apply),
and meets the configured minimum word count. -/
theorem chunk_idempotence (s : Settings) (c : List Char) (cs ov : Nat)
    (hstrip : pyStrip c = c) (hnb : hasParaBreak c = false)
    (h2000 : c.length ≤ 2000)
    (hwords : s.MIN_TEXT_BLOCK_WORDS ≤ (pyWords c).length)
    (hq : is_chunk_quality c = true) (hsize : c.length ≤ cs) :
    chunk_text s c cs ov = [c] := by
  have hcne : (c.isEmpty || (pyStrip c).isEmpty) = false := by
    cases h : (c.isEmpty || (pyStrip c).isEmpty) with
    | false => rfl
    | true =>
        unfold is_chunk_quality at hq
        rw [if_pos h] at hq
        simp at hq
  have hcemp : c.isEmpty = false := by
    simp only [Bool.or_eq_false_iff] at hcne
    exact hcne.1
  have hsemp : (pyStrip c).isEmpty = false := by
    simp only [Bool.or_eq_false_iff] at hcne
    exact hcne.2
  have hc0 : c ≠ [] := by
    intro h
    rw [h] at hcemp
    simp at hcemp
  have hsplit : split_into_logical_blocks c = [c] := by
    unfold split_into_logical_blocks pySplitParagraphs
    rw [paraSplitAux_no_break (c.length + 1) c hnb []]
    have hnot2000 : ¬ c.length > 2000 := by omega
    simp [hnot2000, hstrip, hc0]
  have hfilter : filter_blocks s [c] = [c] := by
    unfold filter_blocks
    simp [hwords]
  have hloop : create_chunks_loop cs ov [c] [] = [c] := by
    simp [create_chunks_loop, hstrip, hcemp, hc0]
  have hcc : create_chunks_from_blocks [c] cs ov = [c] := by
    simp [create_chunks_from_blocks, hloop]
  unfold chunk_text
  rw [if_neg (by simp [hcne]), hsplit, hfilter, hcc]
  simp [hq]

/-- A quality chunk (55 characters, one word, leading space) on which
re-chunking is not the identity. -/
def paddedChunk : List Char :=
  sl " aaaaaaaaaaaaaaaaaaaaaaaaaaaaaaaaaaaaaaaaaaaaaaaaaaaaaa"

/-- Counterexample to claim C6 as stated: `paddedChunk` satisfies the chunk
quality predicate and is shorter than `chunk_size = 800`, yet
`chunk_text` does not return it unchanged (blocks are whitespace-stripped
and short single-word blocks are dropped by the block filter). -/
theorem chunk_idempotence_cex :
    is_chunk_quality paddedChunk = true ∧ paddedChunk.length ≤ 800 ∧
      chunk_text defaultSettings paddedChunk 800 100 ≠ [paddedChunk] := by
  decide

/-- Witness for the amended C6 at `sampleChunk`. -/
theorem chunk_idempotence_witness :
    (pyStrip sampleChunk = sampleChunk ∧ hasParaBreak sampleChunk = false ∧
        sampleChunk.length ≤ 2000 ∧
        defaultSettings.MIN_TEXT_BLOCK_WORDS ≤ (pyWords sampleChunk).length ∧
        is_chunk_quality sampleChunk = true ∧ sampleChunk.length ≤ 800) ∧
      chunk_text defaultSettings sampleChunk 800 100 = [sampleChunk] :=
  ⟨by decide,
   chunk_idempotence defaultSettings sampleChunk 800 100 (by decide) (by decide)
     (by decide) (by decide) (by decide) (by decide)⟩

/-!
## `layout.py` — `HeaderFooterFilter`

The mutable `header_patterns` / `footer_patterns` attributes of the filter
object are modelled by an explicit state value threaded through the calls;
`hfInit` is the state of a freshly constructed filter.
-/

/-- The pattern state of a `HeaderFooterFilter` instance. -/
structure HFState where
  header_patterns : List (List Char)
  footer_patterns : List (List Char)
deriving DecidableEq

/-- A freshly constructed `HeaderFooterFilter` (both pattern lists empty). -/
def hfInit : HFState := ⟨[], []⟩

/-- `re.findall(r'\b\d+\b', text)` scanning loop: maximal digit runs whose
neighbours are not word characters.  Fuel-structural; each step consumes at
least one character. -/
def findNumsAux : Nat → Bool → List Char → List (List Char)
  | 0, _, _ => []
  | _ + 1, _, [] => []
  | fuel + 1, prevWord, c :: rest =>
      if pyIsDigit c && !prevWord then
        let run := (c :: rest).takeWhile pyIsDigit
        match (c :: rest).dropWhile pyIsDigit with
        | [] => [run]
        | d :: rest' =>
            if pyIsWordChar d then findNumsAux fuel true (d :: rest')
            else run :: findNumsAux fuel true (d :: rest')
      else findNumsAux fuel (pyIsWordChar c) rest

/-- `re.findall(r'\b\d+\b', text)`. -/
def findNums (text : List Char) : List (List Char) :=
  findNumsAux (text.length + 1) false text

/-- Match of `Page \d+` (case-insensitive) anchored at the head; returns the
matched text in its original case. -/
def pageNumMatchAt : List Char → Option (List Char)
  | p :: a :: g :: e :: sp :: rest =>
      if p.toLower = 'p' && a.toLower = 'a' && g.toLower = 'g' &&
          e.toLower = 'e' && sp = ' ' then
        let ds := rest.takeWhile pyIsDigit
        if ds.isEmpty then none else some (p :: a :: g :: e :: sp :: ds)
      else none
  | _ => none

/-- `re.search(r'Page \d+', text, re.IGNORECASE)` with `.group()`. -/
def searchPageNum : List Char → Option (List Char)
  | [] => none
  | c :: rest =>
      match pageNumMatchAt (c :: rest) with
      | some g => some g
      | none => searchPageNum rest

/-- Match of `© \d{4}` anchored at the head. -/
def copyrightMatchAt : List Char → Option (List Char)
  | c :: sp :: d1 :: d2 :: d3 :: d4 :: _ =>
      if c = '©' && sp = ' ' && pyIsDigit d1 && pyIsDigit d2 && pyIsDigit d3 &&
          pyIsDigit d4 then
        some [c, sp, d1, d2, d3, d4]
      else none
  | _ => none

/-- `re.search(r'© \d{4}', text)` with `.group()`. -/
def searchCopyright : List Char → Option (List Char)
  | [] => none
  | c :: rest =>
      match copyrightMatchAt (c :: rest) with
      | some g => some g
      | none => searchCopyright rest

/-- Case-insensitive literal match anchored at the head (needle given in
lowercase); returns the matched slice in its original case. -/
def ciMatchAt (needle hay : List Char) : Option (List Char) :=
  let pre := hay.take needle.length
  if pre.length = needle.length && pyLower pre = needle then some pre else none

/-- `re.search(needle, text, re.IGNORECASE)` for a literal needle, with
`.group()`. -/
def searchCI (needle : List Char) : List Char → Option (List Char)
  | [] => none
  | c :: rest =>
      match ciMatchAt needle (c :: rest) with
      | some g => some g
      | none => searchCI needle rest

/-- `_extract_potential_patterns`: formatted standalone numbers, then the
common header/footer regexes in order (`Page \d+`, `^\d+$`, `© \d{4}`,
`Confidential`, `Draft`), each contributing its matched text when found.
The samples passed in never contain a newline, so `^\d+$` is the
all-digits test. -/
def extract_potential_patterns (text : List Char) : List (List Char) :=
  let patterns := (findNums text).map (fun num => ' ' :: (num ++ [' ']))
  patterns ++
    [searchPageNum text,
     if !text.isEmpty && text.all pyIsDigit then some text else none,
     searchCopyright text,
     searchCI (sl "confidential") text,
     searchCI (sl "draft") text].reduceOption

/-- One insertion into the ordered occurrence-count map
(`pattern_counts[pattern] = pattern_counts.get(pattern, 0) + 1`). -/
def bumpCount : List (List Char × Nat) → List Char → List (List Char × Nat)
  | [], k => [(k, 1)]
  | (k', n) :: rest, k =>
      if k' = k then (k', n + 1) :: rest else (k', n) :: bumpCount rest k

/-- `_find_repeating_patterns` with the default `min_occurrences = 3`. -/
def find_repeating_patterns (samples : List (List Char)) : List (List Char) :=
  let counts := samples.foldl
    (fun m sample => (extract_potential_patterns sample).foldl bumpCount m) []
  (counts.filter (fun kv => 3 ≤ kv.2)).map Prod.fst

/-- `_detect_repeating_patterns`: with fewer than 3 pages the state is left
unchanged; otherwise both pattern lists are recomputed from the first/last
3 lines of every page. -/
def detect_repeating_patterns (st : HFState) (pages : List (List Char)) : HFState :=
  if pages.length < 3 then st
  else
    let first_lines := pages.map (fun page =>
      pyStrip (pyJoin [' '] ((pySplitOn '\n' page).take 3)))
    let last_lines := pages.map (fun page =>
      pyStrip (pyJoin [' '] (lastN 3 (pySplitOn '\n' page))))
    { header_patterns := find_repeating_patterns first_lines
      footer_patterns := find_repeating_patterns last_lines }

/-- `pattern.lower().strip() in line_text.lower()` for some pattern. -/
def lineMatchesPattern (patterns : List (List Char)) (line_text : List Char) : Bool :=
  patterns.any (fun pat => pyContains (pyLower (pyStrip pat)) (pyLower line_text))

/-- `_remove_pattern_lines`: with no patterns the lines are returned as-is;
otherwise blank lines, pattern-matching lines, and short all-digit lines
are dropped, falling back to the input if everything would be removed. -/
def remove_pattern_lines (lines patterns : List (List Char)) : List (List Char) :=
  if patterns.isEmpty then lines
  else
    let filtered := lines.filterMap (fun line =>
      let lt := pyStrip line
      if lt.isEmpty then none
      else if lineMatchesPattern patterns lt then none
      else if (pyWords lt).length ≤ 2 && !lt.isEmpty && lt.all pyIsDigit then none
      else some line)
    if filtered.isEmpty then lines else filtered

/-- `_filter_single_page` (its unused `page_num`/`total_pages` parameters are
omitted).  Note the footer pass operates on the result of the header pass —
which only contains the first five lines of the page. -/
def filter_single_page (st : HFState) (page_text : List Char) : List Char :=
  let lines := pySplitOn '\n' page_text
  if lines.length < 3 then page_text
  else
    let filtered_lines := remove_pattern_lines (lines.take 5) st.header_patterns
    let footer_start := filtered_lines.length - 5
    pyJoin ['\n']
      (remove_pattern_lines (filtered_lines.drop footer_start) st.footer_patterns)

/-- `HeaderFooterFilter.filter_headers_footers`: returns the updated pattern
state together with the filtered pages. -/
def filter_headers_footers (s : Settings) (st : HFState)
    (pages : List (List Char)) : HFState × List (List Char) :=
  if !s.HEADER_FOOTER_DETECTION || pages.length < 2 then (st, pages)
  else
    let st' := detect_repeating_patterns st pages
    (st', pages.map (filter_single_page st'))

/-- An 11-line page with pairwise distinct, letter-only lines (so that no
header/footer pattern is ever detected). -/
def elevenLinePage : List Char :=
  sl "aa\nbb\ncc\ndd\nee\nff\ngg\nhh\nii\njj\nkk"

/-- The first five lines of `elevenLinePage`. -/
def firstFiveLines : List Char := sl "aa\nbb\ncc\ndd\nee"

/-- Claim C3 is violated by the code: on a 3-page document with no
repeating patterns at all, filtering keeps only the first five lines of
each page.  Line `ff` sits at index 5 of the 11 lines — outside both the
first five and the last five — yet it is absent from the filtered page. -/
theorem header_footer_truncates_middle :
    (filter_headers_footers defaultSettings hfInit
        [elevenLinePage, elevenLinePage, elevenLinePage]).2 =
      [firstFiveLines, firstFiveLines, firstFiveLines] ∧
    (pySplitOn '\n' elevenLinePage).length = 11 ∧
    (pySplitOn '\n' elevenLinePage)[5]? = some (sl "ff") ∧
    ¬ sl "ff" ∈ pySplitOn '\n' firstFiveLines := by
  decide

/-- Claim C4 is violated by the code: `filter_headers_footers` is not the
identity on a 2-page document — it already runs for 2 pages (the guard is
`len(pages) < 2`, not `< 3`) and truncates each page to its first five
lines. -/
theorem header_footer_two_pages_not_identity :
    ([elevenLinePage, elevenLinePage].length < 3) ∧
      (filter_headers_footers defaultSettings hfInit
          [elevenLinePage, elevenLinePage]).2 ≠
        [elevenLinePage, elevenLinePage] := by
  decide

/-!
## `extraction.py`

Opening the PDF and running per-page native/OCR extraction are collaborator
I/O (`pdfplumber`, `pytesseract`); `_process_single_page` catches every
exception and always returns a `PageResult`, so the aggregation logic of
`extract_text_from_pdf_smart` after the page loop is modelled as a function
of the list of per-page results.  Fatal errors are the `Except.error`
branch (the source re-wraps the all-pages-failed `RuntimeError` message in
its generic handler, which is still a raised `RuntimeError`).
-/

/-- `types.PageResult` (OCR confidence is a Python float, modelled as `ℚ`). -/
structure PageResult where
  page_number : Nat
  text : List Char
  method : List Char
  confidence : Option ℚ
  error : Option (List Char)
  success : Bool
deriving DecidableEq

/-- One entry of the per-page error list built in the page loop. -/
structure PageError where
  page_number : Nat
  error : Option (List Char)
  method : List Char
deriving DecidableEq

/-- The `stats` dictionary of an `ExtractionResult`. -/
structure ExtractStats where
  total_pages : Nat
  successful_pages : Nat
  failed_pages : Nat
deriving DecidableEq

/-- `types.ExtractionResult`. -/
structure ExtractionResult where
  success : Bool
  pages : List PageResult
  errors : List PageError
  stats : ExtractStats
  full_text : List Char
deriving DecidableEq

/-- Document-fatal extraction errors. -/
inductive ExtractErr
  | noPages
  | allPagesFailed
deriving DecidableEq

/-- The error list accumulated by the page loop: one entry per failed page,
in page order. -/
def pageErrors (prs : List PageResult) : List PageError :=
  prs.filterMap (fun p =>
    if p.success then none else some ⟨p.page_number, p.error, p.method⟩)

/-- `page_texts = [p.text for p in pages if p.success and p.text]`. -/
def successfulPageTexts (prs : List PageResult) : List (List Char) :=
  (prs.filter (fun p => p.success && !p.text.isEmpty)).map PageResult.text

/-- Write the filtered texts back into the successful non-empty pages, in
order (the in-place mutation loop of `extract_text_from_pdf_smart`). -/
def applyFiltered : List PageResult → List (List Char) → List PageResult
  | [], _ => []
  | p :: ps, fs =>
      if p.success && !p.text.isEmpty then
        match fs with
        | f :: fs' => { p with text := f } :: applyFiltered ps fs'
        | [] => p :: applyFiltered ps []
      else p :: applyFiltered ps fs

/-- The pages after the header/footer filtering step. -/
def hfPages (s : Settings) (st : HFState) (prs : List PageResult) : List PageResult :=
  if !(successfulPageTexts prs).isEmpty && s.HEADER_FOOTER_DETECTION then
    applyFiltered prs (filter_headers_footers s st (successfulPageTexts prs)).2
  else prs

/-- `total_text`: concatenation of the texts of successful non-empty pages,
each followed by a newline. -/
def fullTextOf (pages : List PageResult) : List Char :=
  pages.foldl (fun acc p =>
    if p.success && !p.text.isEmpty then acc ++ p.text ++ ['\n'] else acc) []

/-- The aggregation logic of `extract_text_from_pdf_smart` given the
per-page results. -/
def extract_smart_core (s : Settings) (st : HFState) (prs : List PageResult) :
    Except ExtractErr ExtractionResult :=
  if prs.isEmpty then .error .noPages
  else if (hfPages s st prs).countP (fun p => p.success) = 0 then
    .error .allPagesFailed
  else
    .ok { success := true
          pages := hfPages s st prs
          errors := pageErrors prs
          stats := ⟨prs.length, (hfPages s st prs).countP (fun p => p.success),
                    (pageErrors prs).length⟩
          full_text := pyStrip (fullTextOf (hfPages s st prs)) }

theorem applyFiltered_countP_success :
    ∀ (ps : List PageResult) (fs : List (List Char)),
      (applyFiltered ps fs).countP (fun p => p.success) =
        ps.countP (fun p => p.success)
  | [], _ => rfl
  | p :: ps, fs => by
      unfold applyFiltered
      split
      · cases fs with
        | nil =>
            simp only [List.countP_cons, applyFiltered_countP_success ps []]
        | cons f fs' =>
            simp only [List.countP_cons, applyFiltered_countP_success ps fs']
      · simp only [List.countP_cons, applyFiltered_countP_success ps fs]

theorem hfPages_countP_success (s : Settings) (st : HFState)
    (prs : List PageResult) :
    (hfPages s st prs).countP (fun p => p.success) =
      prs.countP (fun p => p.success) := by
  unfold hfPages
  split
  · exact applyFiltered_countP_success prs _
  · rfl

theorem pageErrors_map_page_number (prs : List PageResult) :
    (pageErrors prs).map PageError.page_number =
      (prs.filter (fun p => !p.success)).map PageResult.page_number := by
  induction prs with
  | nil => rfl
  | cons p ps ih =>
      unfold pageErrors at ih ⊢
      cases hs : p.success with
      | true => simp [List.filterMap_cons, hs, ih]
      | false => simp [List.filterMap_cons, hs, ih]

/-- Claim C7: for a PDF that opens with at least one page, the aggregate
result is an error exactly when every page failed; otherwise the result
carries `success = true` and its error list records exactly the failed
pages. -/
theorem extraction_success_iff (s : Settings) (st : HFState)
    (prs : List PageResult) (hne : prs ≠ []) :
    ((∀ p ∈ prs, p.success = false) →
        extract_smart_core s st prs = .error .allPagesFailed) ∧
    ((∃ p ∈ prs, p.success = true) →
        (extract_smart_core s st prs).toOption.map
            (fun r => (r.success, r.errors.map PageError.page_number)) =
          some (true, (prs.filter (fun p => !p.success)).map PageResult.page_number)) := by
  have hcnt := hfPages_countP_success s st prs
  constructor
  · intro hall
    have hzero : prs.countP (fun p => p.success) = 0 := by
      rw [List.countP_eq_zero]
      intro p hp
      simp [hall p hp]
    unfold extract_smart_core
    rw [if_neg (by simp [hne]), if_pos (by rw [hcnt, hzero])]
  · rintro ⟨p, hp, hps⟩
    have hpos : prs.countP (fun p => p.success) ≠ 0 := by
      intro h
      rw [List.countP_eq_zero] at h
      exact absurd hps (by simpa using h p hp)
    unfold extract_smart_core
    rw [if_neg (by simp [hne]), if_neg (by rw [hcnt]; exact hpos)]
    simp [Except.toOption, pageErrors_map_page_number]

/-- A successful page for the C7 witness. -/
def okPage : PageResult :=
  { page_number := 1, text := sl "Hello world content", method := sl "text"
    confidence := none, error := none, success := true }

/-- A failed page for the C7 witness. -/
def badPage : PageResult :=
  { page_number := 2, text := [], method := sl "failed"
    confidence := none, error := some (sl "Failed to process page 2: boom")
    success := false }

/-- Witness for C7: one successful and one failed page yield an overall
success whose error list names exactly page 2. -/
theorem extraction_success_iff_witness :
    (extract_smart_core defaultSettings hfInit [okPage, badPage]).toOption.map
        (fun r => (r.success, r.errors.map PageError.page_number)) =
      some (true, [2]) := by
  have h := (extraction_success_iff defaultSettings hfInit [okPage, badPage]
      (by simp)).2 ⟨okPage, by simp, rfl⟩
  rw [h]
  rfl

/-!
## `llm/chat.py`

The chat-completion collaborator is an oracle from the message content sent
to it to an outcome: either the reply content (`response.choices[0].message
.content`) or one of the exception classes distinguished by the source.
-/

/-- Outcome of one chat-completion call. -/
inductive GenOutcome
  | ok (content : List Char)
  | authError
  | rateLimitError
  | connectionError
  | apiError
  | otherError
deriving DecidableEq

/-- The refinement prompt built by `refine_question`. -/
def refinementPrompt (question : List Char) : List Char :=
  sl "You are a question clarification assistant. Rewrite user questions to be clear, specific, and well-formed for document search.\n\nRules:\n- Correct grammar and spelling\n- Expand abbreviations (e.g., \"mgr\" → \"manager\")\n- Make ambiguous questions specific\n- Keep the core intent unchanged\n- Return only the clarified question, no explanation\n\nOriginal: \"" ++
    question ++ sl "\"\nClarified:"

/-- The "validate refinement quality" step of `refine_question`: a reply is
accepted only when, after stripping, it is non-empty, strictly longer than
10 and strictly shorter than 500 characters, and differs case-insensitively
from the original. -/
def validateRefinement (question content : List Char) : List Char :=
  if !(pyStrip content).isEmpty && (pyStrip content).length > 10 &&
      (pyStrip content).length < 500 &&
      pyLower (pyStrip content) ≠ pyLower question
  then pyStrip content else question

/-- `refine_question`: blank questions are returned unchanged without a
call; any exception from the call falls back to the original question;
otherwise the reply is passed through the quality validation. -/
def refine_question (question : List Char) (api : List Char → GenOutcome) :
    List Char :=
  if question.isEmpty || (pyStrip question).isEmpty then question
  else
    match api (refinementPrompt question) with
    | .ok content => validateRefinement question content
    | _ => question

/-- `True` exactly on a successful chat-completion outcome. -/
def genIsOk : GenOutcome → Bool
  | .ok _ => true
  | _ => false

/-- Errors raised by `answer_question` (the empty-reply `RuntimeError` is
re-wrapped by the generic handler in the source; it is still a raised
error). -/
inductive AnswerErr
  | emptyQuestion
  | noContext
  | allChunksEmpty
  | authError
  | rateLimitError
  | connectionError
  | apiError
  | emptyResponse
deriving DecidableEq

/-- The numbered context block `"\n\n---\n\n".join("[Chunk i]\n" + chunk)`. -/
def buildContextBlock (chunks : List (List Char)) : List Char :=
  pyJoin (sl "\n\n---\n\n")
    (((List.range chunks.length).zip chunks).map (fun ic =>
      sl "[Chunk " ++ sl (Nat.repr (ic.1 + 1)) ++ sl "]\n" ++ ic.2))

/-- The system message of `answer_question`. -/
def systemMessage : List Char :=
  sl "You are a precise document analysis assistant.\nAnswer questions based strictly on provided context. Be accurate, concise, and cite sources when possible."

/-- The fixed part of the `answer_question` prompt before the context. -/
def promptHeader : List Char :=
  sl "Use the following context to answer the question. The context includes document content and metadata.\n\n**Analysis Rules:**\n1. **Explicit Facts** (names, dates, numbers, specific details): Only use information directly stated in the context\n2. **Document Type Inference**: You may identify document types from structural patterns:\n   - Resume: \"Experience\", \"Education\", \"Skills\" sections, chronological work history\n   - Invoice: Line items, amounts, totals, vendor/client information, payment terms\n   - Report: Numbered sections, executive summary, table of contents, conclusions\n   - Contract: Terms and conditions, legal clauses, signature blocks\n   - Email: To/From/Subject headers, conversational tone\n3. **Metadata**: Use provided document metadata (page count, author, creation date, file size)\n\n**Response Guidelines:**\n- Be concise and direct\n- For factual answers: Quote relevant excerpts using quotation marks\n- Cite chunk numbers when referencing specific sections (e.g., \"According to Chunk 2...\")\n- If information is absent: State \"This information is not available in the document\"\n- If question is ambiguous: Request clarification\n- Do not make assumptions beyond what\x27s in the context\n\n**Context:**\n"

/-- The full user prompt of `answer_question`. -/
def answerPrompt (context_block question : List Char) : List Char :=
  promptHeader ++ context_block ++ sl "\n\n**Question:** " ++ question ++
    sl "\n\n**Answer:**"

/-- `answer_question`, returning the outcome together with a flag recording
whether the generation collaborator was invoked.  The argument is typed as
a list of strings, so the `isinstance(context_chunks, list)` guard and the
skip of non-string chunks in the validation loop are vacuous here. -/
def answer_question (question : List Char) (context_chunks : List (List Char))
    (api : List Char → GenOutcome) : Except AnswerErr (List Char) × Bool :=
  if question.isEmpty || (pyStrip question).isEmpty then
    (.error .emptyQuestion, false)
  else if context_chunks.isEmpty then (.error .noContext, false)
  else
    let valid_chunks := context_chunks.filterMap (fun ch =>
      let cleaned := pyStrip ch
      if cleaned.isEmpty then none else some cleaned)
    if valid_chunks.isEmpty then (.error .allChunksEmpty, false)
    else
      match api (answerPrompt (buildContextBlock valid_chunks) question) with
      | .ok content =>
          if content.isEmpty || (pyStrip content).isEmpty then
            (.error .emptyResponse, true)
          else (.ok (pyStrip content), true)
      | .authError => (.error .authError, true)
      | .rateLimitError => (.error .rateLimitError, true)
      | .connectionError => (.error .connectionError, true)
      | .apiError => (.error .apiError, true)
      | .otherError => (.error .emptyResponse, true)

/-- Claim C9: with a non-blank question and an empty context list,
`answer_question` raises the no-context validation error and never invokes
the generation collaborator. -/
theorem answer_no_context (question : List Char) (api : List Char → GenOutcome)
    (hq : (pyStrip question).isEmpty = false) :
    answer_question question [] api = (.error .noContext, false) := by
  have hq0 : question.isEmpty = false := by
    cases question with
    | nil => simp [pyStrip] at hq
    | cons c rest => rfl
  unfold answer_question
  rw [if_neg (by simp [hq0, hq]), if_pos (by simp)]

/-- A generation oracle that always fails (never reached in the witness). -/
def failingGen : List Char → GenOutcome := fun _ => .otherError

/-- Witness for C9 at a concrete question. -/
theorem answer_no_context_witness :
    (pyStrip (sl "What is this?")).isEmpty = false ∧
      answer_question (sl "What is this?") [] failingGen =
        (.error .noContext, false) :=
  ⟨by decide, answer_no_context (sl "What is this?") failingGen (by decide)⟩

/-- A reply of exactly 10 characters. -/
def tenCharReply : List Char := sl "abcdefghij"

/-- The original question used in the C8 counterexample. -/
def origQuestion : List Char := sl "What is the total cost?"

/-- Counterexample to claim C8 as stated: the refinement call succeeds with
a 10-character reply — not shorter than 10, not longer than 500, different
case-insensitively from the original — so the claim requires the rewritten
text to be returned, but the code (`len > 10`) falls back to the original
question. -/
theorem refine_boundary_cex :
    ¬ tenCharReply.length < 10 ∧ ¬ tenCharReply.length > 500 ∧
      pyStrip tenCharReply = tenCharReply ∧
      pyLower tenCharReply ≠ pyLower origQuestion ∧
      refine_question origQuestion (fun _ => .ok tenCharReply) = origQuestion ∧
      origQuestion ≠ tenCharReply := by
  decide

/-- Claim C8, amended: `refine_question` never raises (it is a total
function of the call outcome); on any failed call, or a blank question, or
a reply whose stripped length is at most 10 or at least 500 or which equals
the original case-insensitively, the original question is returned
unchanged; otherwise the stripped reply is returned. -/
theorem refine_fallback (question content : List Char)
    (api : List Char → GenOutcome)
    (hok : api (refinementPrompt question) = .ok content) :
    (((pyStrip content).length ≤ 10 ∨ 500 ≤ (pyStrip content).length ∨
        pyLower (pyStrip content) = pyLower question ∨
        (pyStrip question).isEmpty = true) →
      refine_question question api = question) ∧
    (10 < (pyStrip content).length → (pyStrip content).length < 500 →
      pyLower (pyStrip content) ≠ pyLower question →
      (pyStrip question).isEmpty = false →
      refine_question question api = pyStrip content) ∧
    (∀ api2 : List Char → GenOutcome,
      genIsOk (api2 (refinementPrompt question)) = false →
      refine_question question api2 = question) := by
  refine ⟨?_, ?_, ?_⟩
  · intro hbad
    unfold refine_question
    split
    · rfl
    · rename_i hq
      simp only [Bool.or_eq_true, not_or, Bool.not_eq_true] at hq
      rw [hok]
      show validateRefinement question content = question
      unfold validateRefinement
      split
      · rename_i hcond
        simp only [Bool.and_eq_true, Bool.not_eq_true', decide_eq_true_eq] at hcond
        obtain ⟨⟨⟨hne, hgt⟩, hlt⟩, hneq⟩ := hcond
        exfalso
        rcases hbad with h | h | h | h
        · omega
        · omega
        · exact hneq h
        · rw [hq.2] at h; exact Bool.false_ne_true h
      · rfl
  · intro hgt hlt hneq hqs
    have hq0 : question.isEmpty = false := by
      cases question with
      | nil => simp [pyStrip] at hqs
      | cons c r => rfl
    have hcne : (pyStrip content).isEmpty = false := by
      cases h : pyStrip content with
      | nil => rw [h] at hgt; simp at hgt
      | cons a b => rfl
    unfold refine_question
    rw [if_neg (by simp [hq0, hqs]), hok]
    show validateRefinement question content = pyStrip content
    unfold validateRefinement
    rw [if_pos ?_]
    simp only [Bool.and_eq_true, Bool.not_eq_true', decide_eq_true_eq]
    exact ⟨⟨⟨hcne, hgt⟩, hlt⟩, hneq⟩
  · intro api2 hfail
    unfold refine_question
    split
    · rfl
    · cases h : api2 (refinementPrompt question) with
      | ok c => rw [h] at hfail; simp [genIsOk] at hfail
      | authError => rfl
      | rateLimitError => rfl
      | connectionError => rfl
      | apiError => rfl
      | otherError => rfl

/-- A well-formed refinement reply used by the C8 witness. -/
def refinedReply : List Char := sl "What is the manager responsible for?"

/-- Witness for the amended C8: a successful call with a useful reply is
returned (stripped). -/
theorem refine_fallback_witness :
    refine_question (sl "what is mgr") (fun _ => .ok refinedReply) =
      pyStrip refinedReply :=
  (refine_fallback (sl "what is mgr") refinedReply (fun _ => .ok refinedReply)
      rfl).2.1 (by decide) (by decide) (by decide) (by decide)

/-!
## `embeddings/openai_embeddings.py`

Arguments are modelled as Python-flavoured values: a list whose elements are
strings or non-strings, or a non-list; the remote embedding service is an
oracle from the validated chunk list to vectors (of an abstract type `V`)
or one of the exception classes distinguished by the source.
-/

/-- A Python value appearing as a list element: a string or anything else. -/
inductive PyVal
  | str (s : List Char)
  | nonStr
deriving DecidableEq

/-- The argument passed to `embed_chunks`. -/
inductive EmbedArg
  | list (xs : List PyVal)
  | nonList
deriving DecidableEq

/-- Outcome of one remote embedding request. -/
inductive EmbedApiOutcome (V : Type)
  | ok (vectors : List V)
  | authError
  | rateLimitError
  | connectionError
  | apiError
  | otherError

/-- Errors raised by `embed_chunks`: the two `TypeError`s, the two
`ValueError`s of input validation, and the translated collaborator errors
(auth and rate-limit become `ValueError`, connectivity `ConnectionError`,
API and unexpected errors `RuntimeError`). -/
inductive EmbedErr
  | typeNotList
  | valEmpty
  | typeElemNotString (i : Nat)
  | valElemBlank (i : Nat)
  | authError
  | rateLimitError
  | connectionError
  | apiError
  | otherError
deriving DecidableEq

/-- Which `EmbedErr`s are Python `ValueError`s in the source. -/
def embedErrIsValueError : EmbedErr → Bool
  | .valEmpty => true
  | .valElemBlank _ => true
  | .authError => true
  | .rateLimitError => true
  | _ => false

/-- The element-validation loop of `embed_chunks`: the first offending
element determines the error (`TypeError` for a non-string, `ValueError`
for a blank string). -/
def validateChunks : Nat → List PyVal → Option EmbedErr
  | _, [] => none
  | i, .nonStr :: _ => some (.typeElemNotString i)
  | i, .str s :: rest =>
      if (pyStrip s).isEmpty then some (.valElemBlank i)
      else validateChunks (i + 1) rest

/-- The string contents of a fully validated chunk list. -/
def strVals (xs : List PyVal) : List (List Char) :=
  xs.filterMap (fun v => match v with | .str s => some s | .nonStr => none)

/-- Translation of the remote request outcome into the raised error classes
(the `try`/`except` chain of `embed_chunks`). -/
def embedOutcome {V : Type} : EmbedApiOutcome V → Except EmbedErr (List V) × Bool
  | .ok vs => (.ok vs, true)
  | .authError => (.error .authError, true)
  | .rateLimitError => (.error .rateLimitError, true)
  | .connectionError => (.error .connectionError, true)
  | .apiError => (.error .apiError, true)
  | .otherError => (.error .otherError, true)

/-- `embed_chunks` on a list argument. -/
def embed_chunks_list {V : Type} (xs : List PyVal)
    (api : List (List Char) → EmbedApiOutcome V) :
    Except EmbedErr (List V) × Bool :=
  if xs.isEmpty then (.error .valEmpty, false)
  else
    match validateChunks 0 xs with
    | some e => (.error e, false)
    | none => embedOutcome (api (strVals xs))

/-- `embed_chunks`, returning the outcome together with a flag recording
whether a remote embedding request was made. -/
def embed_chunks {V : Type} (arg : EmbedArg)
    (api : List (List Char) → EmbedApiOutcome V) :
    Except EmbedErr (List V) × Bool :=
  match arg with
  | .nonList => (.error .typeNotList, false)
  | .list xs => embed_chunks_list xs api

/-- The validation loop reports the first offender, with indices offset by
the starting counter. -/
theorem validateChunks_at :
    ∀ (xs : List PyVal) (k i : Nat),
      (∀ j, j < i → ∃ s, xs[j]? = some (.str s) ∧ (pyStrip s).isEmpty = false) →
      ((xs[i]? = some .nonStr →
          validateChunks k xs = some (.typeElemNotString (k + i))) ∧
       (∀ s, xs[i]? = some (.str s) → (pyStrip s).isEmpty = true →
          validateChunks k xs = some (.valElemBlank (k + i))))
  | [], k, i => by
      intro _
      constructor
      · intro h; simp at h
      · intro s h; simp at h
  | v :: rest, k, 0 => by
      intro _
      constructor
      · intro h
        simp only [List.getElem?_cons_zero, Option.some_inj] at h
        subst h
        rfl
      · intro s h hblank
        simp only [List.getElem?_cons_zero, Option.some_inj] at h
        subst h
        show (if (pyStrip s).isEmpty = true then some (EmbedErr.valElemBlank k)
              else validateChunks (k + 1) rest) = some (.valElemBlank (k + 0))
        rw [if_pos hblank]
        rfl
  | v :: rest, k, i + 1 => by
      intro hpre
      obtain ⟨s0, hs0, hs0ne⟩ := hpre 0 (Nat.succ_pos i)
      simp only [List.getElem?_cons_zero, Option.some_inj] at hs0
      subst hs0
      have hstep : validateChunks k (PyVal.str s0 :: rest) =
          validateChunks (k + 1) rest := by
        show (if (pyStrip s0).isEmpty = true then some (EmbedErr.valElemBlank k)
              else validateChunks (k + 1) rest) = validateChunks (k + 1) rest
        rw [if_neg (by simp [hs0ne])]
      have hpre' : ∀ j, j < i →
          ∃ s, rest[j]? = some (.str s) ∧ (pyStrip s).isEmpty = false := by
        intro j hj
        have := hpre (j + 1) (by omega)
        simpa using this
      have ih := validateChunks_at rest (k + 1) i hpre'
      constructor
      · intro h
        rw [hstep, ih.1 (by simpa using h)]
        have : k + 1 + i = k + (i + 1) := by omega
        rw [this]
      · intro s h hblank
        rw [hstep, ih.2 s (by simpa using h) hblank]
        have : k + 1 + i = k + (i + 1) := by omega
        rw [this]

/-- Claim C10, amended: `embed_chunks` rejects a non-list argument with a
`TypeError` and an empty list with a `ValueError`; in a list whose elements
up to position `i` are non-blank strings, a non-string at `i` raises a
`TypeError` and a blank string at `i` raises a `ValueError` naming `i`; in
every such case no remote embedding request is made. -/
theorem embed_validation {V : Type}
    (api : List (List Char) → EmbedApiOutcome V) (xs : List PyVal) (i : Nat)
    (hpre : ∀ j, j < i → ∃ s, xs[j]? = some (.str s) ∧ (pyStrip s).isEmpty = false) :
    (embed_chunks .nonList api = (.error .typeNotList, false)) ∧
    (embed_chunks (.list []) api = (.error .valEmpty, false)) ∧
    (xs[i]? = some .nonStr →
        embed_chunks (.list xs) api = (.error (.typeElemNotString i), false)) ∧
    (∀ s, xs[i]? = some (.str s) → (pyStrip s).isEmpty = true →
        embed_chunks (.list xs) api = (.error (.valElemBlank i), false)) := by
  have hv := validateChunks_at xs 0 i hpre
  refine ⟨rfl, rfl, ?_, ?_⟩
  · intro h
    have hxne : xs.isEmpty = false := by
      cases xs with
      | nil => simp at h
      | cons a b => rfl
    have hrw := hv.1 h
    rw [Nat.zero_add] at hrw
    show embed_chunks_list xs api = (.error (.typeElemNotString i), false)
    unfold embed_chunks_list
    rw [if_neg (by simp [hxne]), hrw]
  · intro s h hblank
    have hxne : xs.isEmpty = false := by
      cases xs with
      | nil => simp at h
      | cons a b => rfl
    have hrw := hv.2 s h hblank
    rw [Nat.zero_add] at hrw
    show embed_chunks_list xs api = (.error (.valElemBlank i), false)
    unfold embed_chunks_list
    rw [if_neg (by simp [hxne]), hrw]

/-- A blank (whitespace-only) string. -/
def blankStr : List Char := sl " "

/-- An embedding oracle returning no vectors (never reached here). -/
def unitEmbedApi : List (List Char) → EmbedApiOutcome Unit := fun _ => .ok []

/-- Counterexample to claim C10 as stated: the list `[<non-string>, " "]`
contains a whitespace-only string, but `embed_chunks` raises the
`TypeError` for the non-string at index 0 — not a `ValueError` — because
the validation loop stops at the first offending element. -/
theorem embed_validation_cex :
    (PyVal.str blankStr ∈ [PyVal.nonStr, PyVal.str blankStr]) ∧
      (pyStrip blankStr).isEmpty = true ∧
      embed_chunks (V := Unit) (.list [PyVal.nonStr, PyVal.str blankStr])
          unitEmbedApi =
        (.error (.typeElemNotString 0), false) ∧
      embedErrIsValueError (.typeElemNotString 0) = false := by
  decide

/-- Witness for the amended C10: a list of strings whose second element is
blank raises the `ValueError` naming index 1, with no remote request. -/
theorem embed_validation_witness :
    embed_chunks (V := Unit) (.list [PyVal.str (sl "hello"), PyVal.str blankStr])
        unitEmbedApi =
      (.error (.valElemBlank 1), false) :=
  (embed_validation unitEmbedApi [PyVal.str (sl "hello"), PyVal.str blankStr] 1
      (by
        intro j hj
        have : j = 0 := by omega
        subst this
        exact ⟨sl "hello", by decide⟩)).2.2.2
    blankStr (by decide) (by decide)

/-!
## `cleaning.py`
-/

/-- `re.sub(r'\s+', ' ', text)`: collapse every whitespace run to a single
space.  Fuel-structural; each step consumes at least one character. -/
def collapseWsAux : Nat → List Char → List Char
  | 0, l => l
  | _ + 1, [] => []
  | fuel + 1, c :: rest =>
      if pyIsSpace c then ' ' :: collapseWsAux fuel (rest.dropWhile pyIsSpace)
      else c :: collapseWsAux fuel rest

/-- `re.sub(r'\s+', ' ', text)`. -/
def collapseWs (l : List Char) : List Char := collapseWsAux (l.length + 1) l

/-- The `cleaned` string of `_is_numeric_value`: currency-class characters
(the class includes `,`), commas and spaces removed. -/
def numericCleaned (text : List Char) : List Char :=
  ((text.filter (fun c => !isCurrencyChar c)).filter (fun c => !(c = ','))).filter
    (fun c => !(c = ' '))

/-- `re.match(r'^\d+(\.\d{1,2})?$', cleaned)`. -/
def isMoneyShape (cleaned : List Char) : Bool :=
  let ds := cleaned.takeWhile pyIsDigit
  !ds.isEmpty &&
    (match cleaned.drop ds.length with
     | [] => true
     | '.' :: frac => !frac.isEmpty && frac.all pyIsDigit && frac.length ≤ 2
     | _ => false)

/-- `re.match(r'^\d+(\.\d+)?%$', cleaned)`. -/
def isPercentShape (cleaned : List Char) : Bool :=
  let ds := cleaned.takeWhile pyIsDigit
  !ds.isEmpty &&
    (match cleaned.drop ds.length with
     | ['%'] => true
     | '.' :: rest =>
         let fs := rest.takeWhile pyIsDigit
         !fs.isEmpty && rest.drop fs.length = ['%']
     | _ => false)

/-- `_is_numeric_value`. -/
def is_numeric_value (text : List Char) : Bool :=
  isMoneyShape (numericCleaned text) || isPercentShape (numericCleaned text)

/-- `^\[\d+\]$`-style full match: an opening bracket, digits, a closing
bracket. -/
def bracketNum (openC closeC : Char) (t : List Char) : Bool :=
  match t with
  | b :: rest =>
      b = openC &&
        (let ds := rest.takeWhile pyIsDigit
         !ds.isEmpty && rest.drop ds.length = [closeC])
  | [] => false

/-- `_is_footnote_marker` (checked on the stripped text). -/
def is_footnote_marker (text : List Char) : Bool :=
  bracketNum '[' ']' (pyStrip text) ||
  bracketNum '(' ')' (pyStrip text) ||
  (!(pyStrip text).isEmpty && (pyStrip text).all pyIsDigit) ||
  (!(pyStrip text).isEmpty &&
    (pyStrip text).all (fun c => c ∈ ['*', '†', '‡', '§', '¶', '#'])) ||
  (!(pyStrip text).isEmpty &&
    (pyStrip text).all (fun c => c ∈ ['¹', '²', '³', '⁴', '⁵', '⁶', '⁷', '⁸', '⁹', '⁰']))

/-- Match of `\(\d+\)` anchored at the head. -/
def parenNumMatchAt : List Char → Bool
  | '(' :: rest =>
      (let ds := rest.takeWhile pyIsDigit
       !ds.isEmpty &&
         (match rest.drop ds.length with
          | ')' :: _ => true
          | _ => false))
  | _ => false

/-- `re.search(r'^\s*[\d]+\.|\(\d+\)', line)`: the first alternative is
anchored at the start of the string, the second may occur anywhere. -/
def numberedListSearch (line : List Char) : Bool :=
  (let t := line.dropWhile pyIsSpace
   let ds := t.takeWhile pyIsDigit
   !ds.isEmpty &&
     (match t.drop ds.length with
      | '.' :: _ => true
      | _ => false)) ||
  line.tails.any parenNumMatchAt

/-- `_should_preserve_line`. -/
def should_preserve_line (s : Settings) (line : List Char) : Bool :=
  (s.PRESERVE_NUMERIC_VALUES && is_numeric_value line) ||
  is_footnote_marker line ||
  line.any (fun c => c ∈ ['•', '●', '○', '■', '□', '▪', '▫']) ||
  numberedListSearch line

/-- `_clean_single_line`: blank lines are removed; whitespace runs are
collapsed; preserved lines pass through; otherwise lines below the minimum
word count are removed unless they are numeric values or footnote markers. -/
def clean_single_line (s : Settings) (line : List Char) : List Char :=
  if line.isEmpty || (pyStrip line).isEmpty then []
  else
    let line1 := collapseWs (pyStrip line)
    if line1.isEmpty then []
    else if should_preserve_line s line1 then line1
    else if (pyWords line1).length < s.MIN_TEXT_BLOCK_WORDS &&
        !(is_numeric_value line1 || is_footnote_marker line1) then []
    else line1

/-- `re.sub(r'\n{3,}', '\n\n', text)`: collapse runs of 3 or more newlines
to exactly two. -/
def collapseNewlines : Nat → List Char → List Char
  | 0, l => l
  | _ + 1, [] => []
  | fuel + 1, c :: rest =>
      if c = '\n' then
        if 3 ≤ ((c :: rest).takeWhile (fun x => x = '\n')).length then
          '\n' :: '\n' ::
            collapseNewlines fuel ((c :: rest).dropWhile (fun x => x = '\n'))
        else c :: collapseNewlines fuel rest
      else c :: collapseNewlines fuel rest

/-- The punctuation class `[,.!?;:]` of `_final_cleanup`. -/
def isPunctCls (c : Char) : Bool :=
  c ∈ [',', '.', '!', '?', ';', ':']

/-- `re.sub(r'\s+([,.!?;:])', r'\1', text)`: delete whitespace runs that
immediately precede a punctuation character. -/
def rmWsBeforePunct : Nat → List Char → List Char
  | 0, l => l
  | _ + 1, [] => []
  | fuel + 1, c :: rest =>
      if pyIsSpace c then
        match (c :: rest).dropWhile pyIsSpace with
        | p :: rest2 =>
            if isPunctCls p then p :: rmWsBeforePunct fuel rest2
            else (c :: rest).takeWhile pyIsSpace ++ rmWsBeforePunct fuel (p :: rest2)
        | [] => c :: rest
      else c :: rmWsBeforePunct fuel rest

/-- `re.sub(r'([,.!?;:])\s*', r'\1 ', text)`: exactly one space after every
punctuation character. -/
def spaceAfterPunct : Nat → List Char → List Char
  | 0, l => l
  | _ + 1, [] => []
  | fuel + 1, c :: rest =>
      if isPunctCls c then c :: ' ' :: spaceAfterPunct fuel (rest.dropWhile pyIsSpace)
      else c :: spaceAfterPunct fuel rest

/-- `_final_cleanup`. -/
def final_cleanup (text : List Char) : List Char :=
  if text.isEmpty then []
  else
    let t1 := collapseNewlines (text.length + 1) text
    let t2 := rmWsBeforePunct (t1.length + 1) t1
    let t3 := spaceAfterPunct (t2.length + 1) t2
    pyStrip (pyJoin ['\n'] ((pySplitOn '\n' t3).map pyRStrip))

/-- `clean_text`. -/
def clean_text (s : Settings) (text : List Char) : List Char :=
  if text.isEmpty then []
  else
    final_cleanup (pyJoin ['\n'] ((pySplitOn '\n' text).filterMap (fun line =>
      let cl := clean_single_line s line
      if cl.isEmpty then none else some cl)))

/-!
## `pipeline/pdf_pipeline.py`

File persistence, the vector index and the remote services are
collaborators; the pipeline is modelled as a function of their oracles that
also records, in order, the externally visible operations it performs.
-/

/-- Externally visible operations of the upload pipeline. -/
inductive PipeEffect
  | initCollection
  | savePdf
  | isFileIndexed (filename : List Char)
  | extractPdf
  | embedRequest (n : Nat)
  | upsertPoints (n : Nat)
deriving DecidableEq

/-- The structured results returned by `process_pdf_upload` (the `status`
field of the returned dict is the constructor). -/
inductive UploadResult
  | alreadyIndexed (filename : List Char)
  | extractionFailed (filename : List Char)
  | indexed (filename : List Char) (chunks_count : Nat)
deriving DecidableEq

/-- Exceptions propagating out of `process_pdf_upload`. -/
inductive PipeErr
  | blankFilename
  | extractErr (e : ExtractErr)
  | embedErr (e : EmbedErr)
  | upsertErr
deriving DecidableEq

/-- Oracles for the pipeline's collaborators: the index existence check,
the extraction result for the saved file, and the embedding service. -/
structure UploadEnv (V : Type) where
  indexed : List Char → Bool
  extractRes : Except ExtractErr ExtractionResult
  embedApi : List (List Char) → EmbedApiOutcome V

/-- `True` on effects representing extraction, embedding or index-write
work. -/
def isWorkEffect : PipeEffect → Bool
  | .extractPdf => true
  | .embedRequest _ => true
  | .upsertPoints _ => true
  | _ => false

/-- The stages of `process_pdf_upload` after a successful extraction:
clean, chunk, embed (via `embed_chunks`), and upsert (with the input
validations of `upsert_chunks`). -/
def process_after_extract {V : Type} (s : Settings) (env : UploadEnv V)
    (filename : List Char) (er : ExtractionResult) (tr : List PipeEffect) :
    Except PipeErr UploadResult × List PipeEffect :=
  if (pyStrip er.full_text).isEmpty then (.ok (.extractionFailed filename), tr)
  else
    let chunks := chunk_text s (clean_text s er.full_text) 800 100
    match embed_chunks (.list (chunks.map PyVal.str)) env.embedApi with
    | (.error e, called) =>
        (.error (.embedErr e),
         tr ++ if called then [PipeEffect.embedRequest chunks.length] else [])
    | (.ok vectors, _) =>
        let tr3 := tr ++ [PipeEffect.embedRequest chunks.length]
        if vectors.isEmpty || chunks.isEmpty then (.error .upsertErr, tr3)
        else if vectors.length ≠ chunks.length then (.error .upsertErr, tr3)
        else (.ok (.indexed filename chunks.length),
              tr3 ++ [PipeEffect.upsertPoints chunks.length])

/-- `process_pdf_upload`: create the collection, save the file, check the
index (`is_file_indexed` raises on a blank filename), short-circuit when
already indexed, and otherwise extract, clean, chunk, embed and upsert. -/
def process_pdf_upload {V : Type} (s : Settings) (env : UploadEnv V)
    (filename : List Char) : Except PipeErr UploadResult × List PipeEffect :=
  if (pyStrip filename).isEmpty then
    (.error .blankFilename, [PipeEffect.initCollection, PipeEffect.savePdf])
  else if env.indexed filename then
    (.ok (.alreadyIndexed filename),
     [PipeEffect.initCollection, PipeEffect.savePdf,
      PipeEffect.isFileIndexed filename])
  else
    match env.extractRes with
    | .error e =>
        (.error (.extractErr e),
         [PipeEffect.initCollection, PipeEffect.savePdf,
          PipeEffect.isFileIndexed filename, PipeEffect.extractPdf])
    | .ok er =>
        process_after_extract s env filename er
          [PipeEffect.initCollection, PipeEffect.savePdf,
           PipeEffect.isFileIndexed filename, PipeEffect.extractPdf]

/-- Claim C2: when the filename is already indexed, `process_pdf_upload`
returns the `already_indexed` status with that filename, its effect trace
is exactly collection-init, file-save and the existence check — no
extraction, no embedding request, no upsert — so the index contents are
untouched and the check happens before any extraction or embedding work. -/
theorem upload_short_circuit {V : Type} (s : Settings) (env : UploadEnv V)
    (filename : List Char) (hnb : (pyStrip filename).isEmpty = false)
    (hidx : env.indexed filename = true) :
    process_pdf_upload s env filename =
      (.ok (.alreadyIndexed filename),
       [PipeEffect.initCollection, PipeEffect.savePdf,
        PipeEffect.isFileIndexed filename]) ∧
    ([PipeEffect.initCollection, PipeEffect.savePdf,
        PipeEffect.isFileIndexed filename].all (fun e => !isWorkEffect e)) = true := by
  constructor
  · unfold process_pdf_upload
    rw [if_neg (by simp [hnb]), if_pos hidx]
  · rfl

/-- A concrete environment in which every filename is already indexed. -/
def indexedEnv : UploadEnv Unit :=
  { indexed := fun _ => true
    extractRes := .error .noPages
    embedApi := fun _ => .ok [] }

/-- Witness for C2 at a concrete filename and environment. -/
theorem upload_short_circuit_witness :
    process_pdf_upload defaultSettings indexedEnv (sl "doc.pdf") =
      (.ok (.alreadyIndexed (sl "doc.pdf")),
       [PipeEffect.initCollection, PipeEffect.savePdf,
        PipeEffect.isFileIndexed (sl "doc.pdf")]) :=
  (upload_short_circuit defaultSettings indexedEnv (sl "doc.pdf")
      (by decide) rfl).1

end RagPdf
